import Mathlib

/-!
Verification of the connection-resilience core of the Serayah chat widget
(`src/frontend/src/components/serayah/SerayahChat.tsx`).

The component is a single-threaded, event-driven React component.  The
embedding below models it as an explicit state machine:

* component state (`useState`/`useRef` fields) becomes the record `ChatState`;
  state reads inside event handlers are modelled as reads of the current
  state (the standard shallow model of such components; React render-closure
  staleness is not modelled, except where a handler reads a value before its
  own queued update, which the code does via functional updates);
* each callback completion (socket `onopen`/`onclose`/`onmessage`, the
  reconnect `setTimeout`, the awaited health probe, the polling `fetch`
  completions, a user send, a manual reconnect) becomes an `Event`, and the
  handlers of the component become the transition function `step`;
* `Date.now()` is modelled by the strictly increasing `now` field, bumped
  once per delivered event; within one handler the source derives ids
  `Date.now()` and `Date.now() + 1`, modelled as `now` and `now + 1`;
* inbound frames are JSON values (`JsonVal`) or unparsable text (`RawFrame`);
  JavaScript truthiness and `String(...)` coercion are modelled explicitly.
-/

namespace SerayahChat

/-! ## JSON values and JavaScript coercions -/

/-- A parsed JSON value, as produced by `JSON.parse` on an inbound frame.
Numbers are modelled as integers (no claim depends on float values). -/
inductive JsonVal where
  | str (s : String)
  | num (n : Int)
  | bool (b : Bool)
  | null
  | obj (fields : List (String × JsonVal))
  | arr (elems : List JsonVal)

/-- The guard `typeof data === "object" && data !== null` from
`handleWsMessage`: JSON objects and arrays pass (in JavaScript
`typeof [] === "object"`); `null` has `typeof "object"` but is excluded by
the explicit null check, so it is `false` here. -/
def isObjLike : JsonVal → Bool
  | .obj _ => true
  | .arr _ => true
  | _ => false

/-- Property access `v.k` on a parsed JSON value: a lookup on objects,
`undefined` (`none`) on everything else.  (String keys such as `"type"` are
never numeric, so array index access never applies.) -/
def jget : JsonVal → String → Option JsonVal
  | .obj fields, k => fields.lookup k
  | _, _ => none

/-- Optional chaining `o?.k`, as in `payload?.message`: `undefined` when the
receiver is missing, `null`, or not an object. -/
def jgetOpt (o : Option JsonVal) (k : String) : Option JsonVal :=
  match o with
  | some .null => none
  | some v => jget v k
  | none => none

/-- JavaScript strict equality of a (possibly missing) field against a string
literal, as in `msg.type === "event"`. -/
def isStr (o : Option JsonVal) (s : String) : Bool :=
  match o with
  | some (.str t) => t == s
  | _ => false

/-- JavaScript truthiness of a (possibly missing) value, as used in the
guards `msg.content`, `msg.result`, `payload?.message`, `payload?.agent`:
`undefined`, `null`, `""`, `0` and `false` are falsy; objects and arrays
(even empty ones) are truthy. -/
def truthyO : Option JsonVal → Bool
  | none => false
  | some .null => false
  | some (.str s) => !(s == "")
  | some (.num n) => !(n == 0)
  | some (.bool b) => b
  | some (.obj _) => true
  | some (.arr _) => true

mutual

/-- JavaScript `String(v)` coercion of a JSON value. -/
def jsToString : JsonVal → String
  | .str s => s
  | .num n => toString n
  | .bool b => cond b "true" "false"
  | .null => "null"
  | .obj _ => "[object Object]"
  | .arr xs => jsArrToString xs

/-- JavaScript array-to-string (comma-joined elements; `null` elements
render as the empty string). -/
def jsArrToString : List JsonVal → String
  | [] => ""
  | [x] => jsElemToString x
  | x :: xs => jsElemToString x ++ "," ++ jsArrToString xs

/-- One array element under `String(...)`. -/
def jsElemToString : JsonVal → String
  | .null => ""
  | v => jsToString v

end

/-- JavaScript `String(o)` where `o` may be a missing property:
`String(undefined) = "undefined"`. -/
def jsToStringO : Option JsonVal → String
  | none => "undefined"
  | some v => jsToString v

/-- Whether a character is trimmed by JavaScript `String.prototype.trim`
(ASCII whitespace; the further Unicode space classes JS also trims are not
observed by any claim). -/
def isJsSpace (c : Char) : Bool :=
  c = ' ' || c = '\t' || c = '\n' || c = '\r'

/-- JavaScript `input.trim()`: strip leading and trailing whitespace. -/
def jsTrim (s : String) : String :=
  ⟨((s.data.dropWhile isJsSpace).reverse.dropWhile isJsSpace).reverse⟩

mutual

/-- `JSON.stringify(v, null, 2)` from the `res` branch of `handleWsMessage`,
modelled as a compact serializer (the source pretty-prints with two-space
indentation and full escaping; no claim observes the exact rendering, only
that the result is serialized to a string when it is not already one). -/
def jsonStringify : JsonVal → String
  | .str s => "\"" ++ s ++ "\""
  | .num n => toString n
  | .bool b => cond b "true" "false"
  | .null => "null"
  | .obj fields => "\x7b" ++ jsonStringifyFields fields ++ "\x7d"
  | .arr xs => "[" ++ jsonStringifyElems xs ++ "]"

/-- Serialized object fields. -/
def jsonStringifyFields : List (String × JsonVal) → String
  | [] => ""
  | [(k, v)] => "\"" ++ k ++ "\":" ++ jsonStringify v
  | (k, v) :: fs => "\"" ++ k ++ "\":" ++ jsonStringify v ++ "," ++ jsonStringifyFields fs

/-- Serialized array elements. -/
def jsonStringifyElems : List JsonVal → String
  | [] => ""
  | [x] => jsonStringify x
  | x :: xs => jsonStringify x ++ "," ++ jsonStringifyElems xs

end

/-! ## Data model (`SerayahMessage`, `SerayahStatus`, `ConnectionState`) -/

/-- `role: "user" | "assistant" | "system"` of a transcript entry. -/
inductive Role where
  | user
  | assistant
  | system
deriving DecidableEq

/-- The `SerayahMessage` interface: one rendered transcript entry.
`timestamp` is an epoch-milliseconds value (`new Date()` in the source). -/
structure SerayahMessage where
  id : String
  role : Role
  content : String
  timestamp : Nat
deriving DecidableEq

/-- Build one transcript entry (the object literals of the source). -/
def mkMsg (id : String) (role : Role) (content : String) (timestamp : Nat) : SerayahMessage :=
  { id := id, role := role, content := content, timestamp := timestamp }

/-- The closed status set of the `SerayahStatus` interface. -/
inductive AgentStatus where
  | online
  | offline
  | busy
  | working
deriving DecidableEq

/-- The `SerayahStatus` snapshot.  `currentTask` is kept as the raw JSON
value the source casts (`agent.current_task as SerayahStatus["currentTask"]`);
`lastSeen` is an epoch-milliseconds value. -/
structure SerayahStatus where
  status : AgentStatus
  currentTask : Option JsonVal := none
  lastSeen : Option Nat := none

/-- `type ConnectionState = "connecting" | "connected" | "disconnected" |
"reconnecting" | "poll-mode"`. -/
inductive ConnectionState where
  | connecting
  | connected
  | disconnected
  | reconnecting
  | pollMode
deriving DecidableEq

/-- `POLL_INTERVAL = 10000` (status polling period, ms). -/
def POLL_INTERVAL : Nat := 10000

/-- `MESSAGE_POLL_INTERVAL = 5000` (message polling period, ms). -/
def MESSAGE_POLL_INTERVAL : Nat := 5000

/-- `MAX_WS_RECONNECT_ATTEMPTS = 3`. -/
def MAX_WS_RECONNECT_ATTEMPTS : Nat := 3

/-- `mapAgentStatus`: normalizes a raw backend status string into the closed
status set.  Source: `switch` with cases `"online" | "active" → online`,
`"working" | "busy" → busy`, `"offline" | "provisioning" → offline`,
default `offline`. -/
def mapAgentStatus (status : String) : AgentStatus :=
  if status = "online" ∨ status = "active" then .online
  else if status = "working" ∨ status = "busy" then .busy
  else if status = "offline" ∨ status = "provisioning" then .offline
  else .offline

/-! ## Deduplicating append and message polling -/

/-- The fallback-path append from `pollMessages`:
`setMessages(prev => prev.some(m => m.id === msg.id) ? prev : [...prev, msg])`
— an incoming message whose id is already rendered is discarded. -/
def dedupAppend (prev : List SerayahMessage) (m : SerayahMessage) : List SerayahMessage :=
  if prev.any (fun x => x.id == m.id) then prev else prev ++ [m]

/-- One item of a `GET /api/v1/messages` response batch
(`{id, content, role, created_at}`; `created_at` is modelled as the
epoch-milliseconds value of the parsed date). -/
structure PollItem where
  id : String
  content : String
  role : String
  created_at : Nat
deriving DecidableEq

/-- Watermark update of one poll round, from `pollMessages`: when the
response is ok and the batch is nonempty, the cursor becomes the id of the last
item unless that id is falsy (`lastMsg.id || lastMessageIdRef.current`);
otherwise the cursor is unchanged. -/
def pollBatchWatermark (w : String) (ok : Bool) (items : List PollItem) : String :=
  if ok then
    match items.getLast? with
    | some lastMsg => if lastMsg.id == "" then w else lastMsg.id
    | none => w
  else w

/-- Transcript update of one poll round, from `pollMessages`: each returned
item with role `"assistant"` is appended through the deduplicating append;
other roles are skipped. -/
def pollBatchMessages (msgs : List SerayahMessage) (ok : Bool) (items : List PollItem) :
    List SerayahMessage :=
  if ok then
    items.foldl
      (fun ms it =>
        if it.role == "assistant" then
          dedupAppend ms (mkMsg it.id .assistant it.content it.created_at)
        else ms)
      msgs
  else msgs

/-- The received data of one poll round: whether `response.ok` held, and the
`items` array. -/
structure PollBatch where
  ok : Bool
  items : List PollItem
deriving DecidableEq

/-- The watermark after a sequence of poll rounds. -/
def pollSeqWatermark (w : String) (bs : List PollBatch) : String :=
  bs.foldl (fun w b => pollBatchWatermark w b.ok b.items) w

/-! ## Inbound frame handling (`ws.onmessage` / `handleWsMessage`) -/

/-- An inbound realtime frame: either a JSON value (when `JSON.parse`
succeeds) or the raw text of a frame that fails JSON decoding. -/
inductive RawFrame where
  | json (v : JsonVal)
  | text (raw : String)

/-- `handleWsMessage(data)`: dispatch on a successfully parsed frame.
`now` is the value of `Date.now()` during the handler.  Returns the updated
transcript and status snapshot.  Mirrors the source exactly: early return on
non-objects; `event`/`chat`, `event`/`presence`, `message`, `res` branches
with JavaScript truthiness guards; every other shape falls through with no
effect. -/
def handleWsMessage (now : Nat) (v : JsonVal) (msgs : List SerayahMessage)
    (status : SerayahStatus) : List SerayahMessage × SerayahStatus :=
  if !isObjLike v then (msgs, status)
  else if isStr (jget v "type") "event" then
    if isStr (jget v "event") "chat" && truthyO (jgetOpt (jget v "payload") "message") then
      (msgs ++ [mkMsg (toString now) .assistant
        (jsToStringO (jgetOpt (jget v "payload") "message")) now], status)
    else if isStr (jget v "event") "presence" && truthyO (jgetOpt (jget v "payload") "agent") then
      (msgs,
       { status := mapAgentStatus
           (jsToStringO (jgetOpt (jgetOpt (jget v "payload") "agent") "status")),
         currentTask := jgetOpt (jgetOpt (jget v "payload") "agent") "current_task",
         lastSeen := some now })
    else (msgs, status)
  else if isStr (jget v "type") "message" && truthyO (jget v "content") then
    (msgs ++ [mkMsg (toString now) .assistant (jsToStringO (jget v "content")) now], status)
  else if isStr (jget v "type") "res" && truthyO (jget v "result") then
    (msgs ++ [mkMsg (toString now) .assistant
      (match jget v "result" with
        | some (.str st) => st
        | some r => jsonStringify r
        | none => "undefined") now], status)
  else (msgs, status)

/-! ## The connection manager state machine -/

/-- Lifecycle of the current primary socket (`wsRef.current?.readyState`):
no socket object, CONNECTING, OPEN, or CLOSED.  `disconnect` nulls the ref,
returning to `noSocket`. -/
inductive WsState where
  | noSocket
  | connecting
  | opened
  | closed
deriving DecidableEq

/-- An outbound frame transmitted on the socket: the structured handshake
`{type:"connect", role:"ui", client:{id:"mc-serayah-chat", version:"1.0.0"}}`
or a chat frame `{type:"message", content}`. -/
inductive OutFrame where
  | connectFrame
  | messageFrame (content : String)
deriving DecidableEq

/-- Environment configuration: `NEXT_PUBLIC_GATEWAY_WS_URL`,
`NEXT_PUBLIC_MC_API_URL` (empty string when unset), and whether the hosting
page is served over https (`window.location.protocol === "https:"`). -/
structure Config where
  gatewayWsUrl : String
  mcApiUrl : String
  securePage : Bool := false

/-- The matched agent entry of a `GET /api/v1/agents` response, as consumed
by `fetchSerayahStatus` (`status`, `current_task`, `last_seen_at` parsed to
epoch milliseconds). -/
structure AgentInfo where
  status : String
  current_task : Option JsonVal := none
  last_seen_at : Option Nat := none

/-- The mutable state of the component: every `useState`/`useRef` field of
`SerayahChat`, plus observation logs (`sentFrames`, `httpPosts`,
`scheduledDelays`) recording the outbound socket frames, the HTTP POST
bodies, and the reconnect delays passed to `setTimeout`, and the `now`
clock modelling `Date.now()`. -/
structure ChatState where
  isOpen : Bool
  messages : List SerayahMessage
  connectionState : ConnectionState
  serayahStatus : SerayahStatus
  reconnectAttempt : Nat
  useHttpFallback : Bool
  wsState : WsState
  socketUrl : Option String
  reconnectTimer : Option Nat
  pollActive : Bool
  pendingProbes : Nat
  pendingMessage : Option String
  lastMessageId : String
  sentFrames : List OutFrame
  httpPosts : List String
  scheduledDelays : List Nat
  now : Nat

/-- `stopHttpFallback`: clears the fallback flag and both polling intervals
(the two interval refs are always set and cleared together, modelled as the
single flag `pollActive`). -/
def stopHttpFallbackS (s : ChatState) : ChatState :=
  { s with useHttpFallback := false, pollActive := false }

/-- The synchronous prefix of `startHttpFallback`: returns immediately when
already in fallback, otherwise issues an awaited `checkHealth()` probe whose
completion is delivered later as a `probeComplete` event. -/
def startHttpFallbackS (s : ChatState) : ChatState :=
  if s.useHttpFallback then s else { s with pendingProbes := s.pendingProbes + 1 }

/-- `checkHealth()` outcome: `false` when no API base URL is configured;
otherwise the probe result (`response.ok`, with thrown/timed-out fetches
caught and returned as `false`, folded into `serverOk`). -/
def checkHealthResult (cfg : Config) (serverOk : Bool) : Bool :=
  if cfg.mcApiUrl = "" then false else serverOk

/-- The socket URL built by `connect`: upgrade `ws://` to `wss://` on a
secure page (the `replace("ws://", "wss://")` of the source, guarded by
`startsWith("ws://")`, so only the leading scheme is rewritten), then append
the fixed session key as a query parameter. -/
def buildWsUrl (cfg : Config) : String :=
  let wsUrl :=
    if cfg.securePage ∧ cfg.gatewayWsUrl.startsWith "ws://" then
      "wss://" ++ cfg.gatewayWsUrl.drop 5
    else cfg.gatewayWsUrl
  if wsUrl.contains '?' then wsUrl ++ "&session=agent:serayah:main"
  else wsUrl ++ "?session=agent:serayah:main"

/-- `connect()`: with no socket URL configured, fall through to the HTTP
fallback; return early when a socket is already OPEN or CONNECTING; otherwise
stop any existing fallback, set `connecting`/`reconnecting` from the attempt
counter, and construct the socket.  `createOk = false` models the
`new WebSocket` constructor throwing: the catch sets `disconnected`, bumps
the attempt counter, and enters the fallback path when the (pre-update)
counter is at least `MAX_WS_RECONNECT_ATTEMPTS - 1`. -/
def connectS (cfg : Config) (createOk : Bool) (s : ChatState) : ChatState :=
  if cfg.gatewayWsUrl = "" then startHttpFallbackS s
  else if s.wsState = .opened ∨ s.wsState = .connecting then s
  else
    let s1 := stopHttpFallbackS s
    let a := s1.reconnectAttempt
    let s2 := { s1 with connectionState := if 0 < a then .reconnecting else .connecting }
    if createOk then
      { s2 with wsState := .connecting, socketUrl := some (buildWsUrl cfg) }
    else
      let s3 := { s2 with connectionState := .disconnected, reconnectAttempt := a + 1 }
      if MAX_WS_RECONNECT_ATTEMPTS - 1 ≤ a then startHttpFallbackS s3 else s3

/-- `ws.onopen`: state `connected`, attempt counter reset, fallback flag
cleared, status forced online, the handshake frame sent, and a pending
outbound message (if any) sent and the slot cleared. -/
def onopenS (s : ChatState) : ChatState :=
  { s with
    wsState := .opened,
    connectionState := .connected,
    reconnectAttempt := 0,
    useHttpFallback := false,
    serayahStatus := { s.serayahStatus with status := .online },
    sentFrames := s.sentFrames ++ [OutFrame.connectFrame] ++
      (match s.pendingMessage with
       | some p => [OutFrame.messageFrame p]
       | none => []),
    pendingMessage := none }

/-- `ws.onclose` (also reached from `ws.onerror`, which calls `ws.close()` to
normalize both paths): state `disconnected`, status offline; then, while the
chat surface is open, either schedule a retry after `3000 * (attempt + 1)` ms
(reading the pre-update counter, as the source closure does) or, at the
ceiling, enter the fallback path.  (The source also computes an unused
`wasConnected` local, omitted here.) -/
def oncloseS (s : ChatState) : ChatState :=
  let s1 := { s with
    wsState := .closed,
    connectionState := .disconnected,
    serayahStatus := { s.serayahStatus with status := .offline } }
  if s1.isOpen then
    let a := s1.reconnectAttempt
    if a < MAX_WS_RECONNECT_ATTEMPTS then
      { s1 with
        reconnectAttempt := a + 1,
        reconnectTimer := some (3000 * (a + 1)),
        scheduledDelays := s1.scheduledDelays ++ [3000 * (a + 1)] }
    else startHttpFallbackS s1
  else s1

/-- `ws.onmessage`: try JSON decoding and dispatch to `handleWsMessage`;
a frame that fails decoding is appended verbatim as a plain-text assistant
message with a generated id. -/
def wsMessageS (f : RawFrame) (s : ChatState) : ChatState :=
  match f with
  | .text raw =>
      { s with messages := s.messages ++ [mkMsg (toString s.now) .assistant raw s.now] }
  | .json v =>
      let r := handleWsMessage s.now v s.messages s.serayahStatus
      { s with messages := r.1, serayahStatus := r.2 }

/-- `disconnect()`: clear the reconnect timer, close and null the socket,
stop fallback polling, and reset state and attempt counter.  (A socket closed
here fires its own late `onclose` in the browser; the single-socket model
drops events of discarded sockets.) -/
def disconnectS (s : ChatState) : ChatState :=
  let s1 := { s with reconnectTimer := none, wsState := .noSocket, socketUrl := none }
  let s2 := stopHttpFallbackS s1
  { s2 with connectionState := .disconnected, reconnectAttempt := 0 }

/-- The system message appended when a fallback-mode send fails. -/
def sendFailText : String :=
  "⚠️ Failed to send message. Service may be temporarily unavailable."

/-- The system message appended when a send is buffered while disconnected. -/
def connectingText : String := "⏳ Connecting to Serayah..."

/-- `sendMessage()`: trim the input and return on empty; append the user
message optimistically; then, in priority order, transmit on an OPEN socket,
or POST via HTTP in fallback mode (appending the failure system message when
the POST is not ok — `sendMessageViaHttp` returns `false` without issuing a
request when no API URL is configured), or store the content in the single
pending slot, append the connecting system message, and call `connect()`. -/
def sendS (cfg : Config) (input : String) (createOk : Bool) (postOk : Bool)
    (s : ChatState) : ChatState :=
  let content := jsTrim input
  if content = "" then s
  else
    let s1 := { s with messages := s.messages ++
      [mkMsg (toString s.now) .user content s.now] }
    if s1.wsState = .opened then
      { s1 with sentFrames := s1.sentFrames ++ [OutFrame.messageFrame content] }
    else if s1.useHttpFallback then
      if cfg.mcApiUrl = "" then
        { s1 with messages := s1.messages ++
          [mkMsg (toString (s.now + 1)) .system sendFailText s.now] }
      else
        let s2 := { s1 with httpPosts := s1.httpPosts ++ [content] }
        if postOk then s2
        else
          { s2 with messages := s2.messages ++
            [mkMsg (toString (s.now + 1)) .system sendFailText s.now] }
    else
      let s2 := { s1 with
        pendingMessage := some content,
        messages := s1.messages ++
          [mkMsg (toString (s.now + 1)) .system connectingText s.now] }
      connectS cfg createOk s2

/-- Completion of an awaited `checkHealth()` probe issued by
`startHttpFallback`.  On a healthy result the continuation runs
unconditionally (the `useHttpFallback` early-return was checked before the
await): fallback flag set, state `poll-mode`, both polling intervals
(re)started, and the initial status/message fetches issued (their completions
arrive as separate `statusResult`/`msgPoll` events).  On an unhealthy result
nothing happens. -/
def probeCompleteS (cfg : Config) (serverOk : Bool) (s : ChatState) : ChatState :=
  let s1 := { s with pendingProbes := s.pendingProbes - 1 }
  if checkHealthResult cfg serverOk then
    { s1 with useHttpFallback := true, connectionState := .pollMode, pollActive := true }
  else s1

/-- `pollMessages()` completion: no-op when no API URL is configured or the
chat surface is closed; otherwise advance the watermark and append the
assistant items of the batch through the deduplicating append. -/
def msgPollS (cfg : Config) (ok : Bool) (items : List PollItem) (s : ChatState) : ChatState :=
  if cfg.mcApiUrl = "" ∨ s.isOpen = false then s
  else
    { s with
      lastMessageId := pollBatchWatermark s.lastMessageId ok items,
      messages := pollBatchMessages s.messages ok items }

/-- `fetchSerayahStatus()` completion: no-op when no API URL is configured;
`r = none` models a failed response or no matching agent; otherwise the
status snapshot is replaced with the normalized agent status. -/
def statusResultS (cfg : Config) (r : Option AgentInfo) (s : ChatState) : ChatState :=
  if cfg.mcApiUrl = "" then s
  else
    match r with
    | some a =>
        { s with serayahStatus :=
          { status := mapAgentStatus a.status, currentTask := a.current_task,
            lastSeen := a.last_seen_at } }
    | none => s

/-- The initial greeting message (content abridged; no claim observes it). -/
def greetingMessage (now : Nat) : SerayahMessage :=
  { id := "greeting", role := .assistant,
    content := "👋 Hello! I am Serayah, your Mission Control assistant.",
    timestamp := now }

/-- Opening the chat surface: the connect effect issues a status fetch and
calls `connect()` when `disconnected` and not in fallback; the greeting
effect seeds the transcript when it is empty. -/
def openChatS (cfg : Config) (createOk : Bool) (s : ChatState) : ChatState :=
  let s1 := { s with isOpen := true }
  let s2 := if s1.messages.isEmpty then { s1 with messages := [greetingMessage s1.now] } else s1
  if s2.connectionState = .disconnected ∧ s2.useHttpFallback = false then
    connectS cfg createOk s2
  else s2

/-- Closing the chat surface: the effect cleanup runs `disconnect()`. -/
def closeChatS (s : ChatState) : ChatState :=
  disconnectS { s with isOpen := false }

/-- `forceReconnect()`: `disconnect()`, reset the attempt counter and the
fallback flag (both already reset by `disconnect`), then `connect()` (the
source defers the call by 100 ms; modelled atomically). -/
def forceReconnectS (cfg : Config) (createOk : Bool) (s : ChatState) : ChatState :=
  connectS cfg createOk (disconnectS s)

/-- One deliverable event of the event loop of the component.  `createOk` models
whether a `new WebSocket` constructor call inside the triggered `connect`
succeeds; `postOk` models the fallback POST outcome; `serverOk` models the
raw outcome of the health probe. -/
inductive Event where
  | openChat (createOk : Bool)
  | closeChat
  | wsOpened
  | wsClosed
  | wsFrame (f : RawFrame)
  | timerFire (createOk : Bool)
  | probeComplete (serverOk : Bool)
  | statusResult (r : Option AgentInfo)
  | msgPoll (ok : Bool) (items : List PollItem)
  | send (input : String) (createOk : Bool) (postOk : Bool)
  | forceReconnect (createOk : Bool)

/-- Advance the `Date.now()` clock past both ids a handler may have drawn. -/
def bumpNow (s : ChatState) : ChatState :=
  { s with now := s.now + 2 }

/-- The transition function: dispatch an event to the matching handler,
guarded by the conditions under which the corresponding callback can fire
(socket events only for the current socket in the right lifecycle state, the
timer only while scheduled, a probe completion only while one is pending, a
message-poll completion only while the intervals are active). -/
def step (cfg : Config) (s : ChatState) (e : Event) : ChatState :=
  bumpNow (match e with
  | .openChat createOk => openChatS cfg createOk s
  | .closeChat => closeChatS s
  | .wsOpened => if s.wsState = .connecting then onopenS s else s
  | .wsClosed => if s.wsState = .connecting ∨ s.wsState = .opened then oncloseS s else s
  | .wsFrame f => if s.wsState = .opened then wsMessageS f s else s
  | .timerFire createOk =>
      if s.reconnectTimer.isSome then
        let s1 := { s with reconnectTimer := none }
        if s1.isOpen then connectS cfg createOk s1 else s1
      else s
  | .probeComplete serverOk =>
      if 0 < s.pendingProbes then probeCompleteS cfg serverOk s else s
  | .statusResult r => statusResultS cfg r s
  | .msgPoll ok items => if s.pollActive then msgPollS cfg ok items s else s
  | .send input createOk postOk => sendS cfg input createOk postOk s
  | .forceReconnect createOk => forceReconnectS cfg createOk s)

/-- The state before the widget is first opened. -/
def initState : ChatState :=
  { isOpen := false, messages := [], connectionState := .disconnected,
    serayahStatus := { status := .offline }, reconnectAttempt := 0,
    useHttpFallback := false, wsState := .noSocket, socketUrl := none,
    reconnectTimer := none, pollActive := false, pendingProbes := 0,
    pendingMessage := none, lastMessageId := "0", sentFrames := [],
    httpPosts := [], scheduledDelays := [], now := 1000 }

/-- The state reached after delivering a sequence of events. -/
def run (cfg : Config) (es : List Event) : ChatState :=
  es.foldl (step cfg) initState

/-! ## Reduction lemmas for `step` and `bumpNow` -/

theorem step_openChat (cfg : Config) (s : ChatState) (ok : Bool) :
    step cfg s (.openChat ok) = bumpNow (openChatS cfg ok s) := rfl

theorem step_closeChat (cfg : Config) (s : ChatState) :
    step cfg s .closeChat = bumpNow (closeChatS s) := rfl

theorem step_wsOpened (cfg : Config) (s : ChatState) :
    step cfg s .wsOpened = bumpNow (if s.wsState = .connecting then onopenS s else s) := rfl

theorem step_wsClosed (cfg : Config) (s : ChatState) :
    step cfg s .wsClosed =
      bumpNow (if s.wsState = .connecting ∨ s.wsState = .opened then oncloseS s else s) := rfl

theorem step_wsFrame (cfg : Config) (s : ChatState) (f : RawFrame) :
    step cfg s (.wsFrame f) =
      bumpNow (if s.wsState = .opened then wsMessageS f s else s) := rfl

theorem step_timerFire (cfg : Config) (s : ChatState) (ok : Bool) :
    step cfg s (.timerFire ok) =
      bumpNow (if s.reconnectTimer.isSome then
        (if s.isOpen then connectS cfg ok { s with reconnectTimer := none }
         else { s with reconnectTimer := none })
      else s) := rfl

theorem step_probeComplete (cfg : Config) (s : ChatState) (serverOk : Bool) :
    step cfg s (.probeComplete serverOk) =
      bumpNow (if 0 < s.pendingProbes then probeCompleteS cfg serverOk s else s) := rfl

theorem step_statusResult (cfg : Config) (s : ChatState) (r : Option AgentInfo) :
    step cfg s (.statusResult r) = bumpNow (statusResultS cfg r s) := rfl

theorem step_msgPoll (cfg : Config) (s : ChatState) (ok : Bool) (items : List PollItem) :
    step cfg s (.msgPoll ok items) =
      bumpNow (if s.pollActive then msgPollS cfg ok items s else s) := rfl

theorem step_send (cfg : Config) (s : ChatState) (input : String) (ok postOk : Bool) :
    step cfg s (.send input ok postOk) = bumpNow (sendS cfg input ok postOk s) := rfl

theorem step_forceReconnect (cfg : Config) (s : ChatState) (ok : Bool) :
    step cfg s (.forceReconnect ok) = bumpNow (forceReconnectS cfg ok s) := rfl

theorem bumpNow_isOpen (s : ChatState) : (bumpNow s).isOpen = s.isOpen := rfl

theorem bumpNow_messages (s : ChatState) : (bumpNow s).messages = s.messages := rfl

theorem bumpNow_connectionState (s : ChatState) :
    (bumpNow s).connectionState = s.connectionState := rfl

theorem bumpNow_serayahStatus (s : ChatState) :
    (bumpNow s).serayahStatus = s.serayahStatus := rfl

theorem bumpNow_reconnectAttempt (s : ChatState) :
    (bumpNow s).reconnectAttempt = s.reconnectAttempt := rfl

theorem bumpNow_useHttpFallback (s : ChatState) :
    (bumpNow s).useHttpFallback = s.useHttpFallback := rfl

theorem bumpNow_wsState (s : ChatState) : (bumpNow s).wsState = s.wsState := rfl

theorem bumpNow_reconnectTimer (s : ChatState) :
    (bumpNow s).reconnectTimer = s.reconnectTimer := rfl

theorem bumpNow_pollActive (s : ChatState) : (bumpNow s).pollActive = s.pollActive := rfl

theorem bumpNow_pendingProbes (s : ChatState) :
    (bumpNow s).pendingProbes = s.pendingProbes := rfl

theorem bumpNow_pendingMessage (s : ChatState) :
    (bumpNow s).pendingMessage = s.pendingMessage := rfl

theorem bumpNow_lastMessageId (s : ChatState) :
    (bumpNow s).lastMessageId = s.lastMessageId := rfl

theorem bumpNow_sentFrames (s : ChatState) : (bumpNow s).sentFrames = s.sentFrames := rfl

theorem bumpNow_httpPosts (s : ChatState) : (bumpNow s).httpPosts = s.httpPosts := rfl

theorem bumpNow_scheduledDelays (s : ChatState) :
    (bumpNow s).scheduledDelays = s.scheduledDelays := rfl

/-! ## Observation helpers -/

/-- Number of rendered transcript entries carrying a given identifier. -/
def countById (l : List SerayahMessage) (i : String) : Nat :=
  l.countP (fun m => m.id == i)

/-- The chat contents of the outbound socket frames, in transmission order
(handshake frames filtered out). -/
def messageFrames (fs : List OutFrame) : List String :=
  fs.filterMap (fun f => match f with
    | .messageFrame c => some c
    | .connectFrame => none)

/-! ## Basic lemmas about the handlers -/

theorem mapAgentStatus_ne_working (s : String) : mapAgentStatus s ≠ .working := by
  unfold mapAgentStatus
  split_ifs <;> simp

theorem startHttpFallbackS_serayahStatus (s : ChatState) :
    (startHttpFallbackS s).serayahStatus = s.serayahStatus := by
  unfold startHttpFallbackS
  split_ifs <;> rfl

theorem connectS_serayahStatus (cfg : Config) (ok : Bool) (s : ChatState) :
    (connectS cfg ok s).serayahStatus = s.serayahStatus := by
  unfold connectS stopHttpFallbackS startHttpFallbackS
  dsimp only
  split_ifs <;> rfl

theorem handleWsMessage_status_ne_working (now : Nat) (v : JsonVal)
    (msgs : List SerayahMessage) (status : SerayahStatus)
    (h : status.status ≠ .working) :
    (handleWsMessage now v msgs status).2.status ≠ .working := by
  unfold handleWsMessage
  split_ifs <;> simp [h, mapAgentStatus_ne_working]

theorem openChatS_serayahStatus (cfg : Config) (ok : Bool) (s : ChatState) :
    (openChatS cfg ok s).serayahStatus = s.serayahStatus := by
  unfold openChatS
  dsimp only
  split_ifs <;> simp [connectS_serayahStatus]

theorem sendS_serayahStatus (cfg : Config) (input : String) (ok postOk : Bool) (s : ChatState) :
    (sendS cfg input ok postOk s).serayahStatus = s.serayahStatus := by
  unfold sendS
  dsimp only
  split_ifs <;> simp [connectS_serayahStatus]

theorem oncloseS_status (s : ChatState) :
    (oncloseS s).serayahStatus.status = .offline := by
  unfold oncloseS
  dsimp only
  split_ifs <;> simp [startHttpFallbackS_serayahStatus]

theorem step_status_ne_working (cfg : Config) (s : ChatState) (e : Event)
    (h : s.serayahStatus.status ≠ .working) :
    (step cfg s e).serayahStatus.status ≠ .working := by
  cases e with
  | openChat createOk =>
      unfold step bumpNow
      simp [openChatS_serayahStatus, h]
  | closeChat =>
      unfold step bumpNow closeChatS disconnectS stopHttpFallbackS
      simpa using h
  | wsOpened =>
      unfold step bumpNow onopenS
      split_ifs <;> simp [h]
  | wsClosed =>
      unfold step bumpNow
      split_ifs <;> simp [oncloseS_status, h]
  | wsFrame f =>
      cases f with
      | text raw =>
          unfold step bumpNow wsMessageS
          split_ifs <;> simp [h]
      | json v =>
          unfold step bumpNow wsMessageS
          split_ifs <;> simp [h, handleWsMessage_status_ne_working _ v _ _ h]
  | timerFire createOk =>
      unfold step bumpNow
      dsimp only
      split_ifs <;> simp [connectS_serayahStatus, h]
  | probeComplete serverOk =>
      unfold step bumpNow probeCompleteS
      dsimp only
      split_ifs <;> simp [h]
  | statusResult r =>
      rw [step_statusResult, bumpNow_serayahStatus]
      unfold statusResultS
      cases r <;> split_ifs <;> simp [h, mapAgentStatus_ne_working]
  | msgPoll ok items =>
      unfold step bumpNow msgPollS
      split_ifs <;> simp [h]
  | send input createOk postOk =>
      unfold step bumpNow
      simp [sendS_serayahStatus, h]
  | forceReconnect createOk =>
      unfold step bumpNow forceReconnectS disconnectS stopHttpFallbackS
      simp [connectS_serayahStatus, h]

theorem foldl_status_ne_working (cfg : Config) (es : List Event) (s : ChatState)
    (h : s.serayahStatus.status ≠ .working) :
    (es.foldl (step cfg) s).serayahStatus.status ≠ .working := by
  induction es generalizing s with
  | nil => exact h
  | cons e es ih => exact ih _ (step_status_ne_working cfg s e h)

/-! ## C9: status normalization -/

/-- C9: `mapAgentStatus` is total and lands in the closed set
online/busy/offline: `"online"`/`"active"` map to online, `"working"`/`"busy"`
to busy, every other string (including `"offline"`, `"provisioning"`,
`"running"`, `"processing"`) to offline; it never returns `working`, so no
presence event and no fallback agents poll can set the status snapshot to
`working` in any reachable state. -/
theorem c9_mapAgentStatus :
    (mapAgentStatus "online" = .online ∧ mapAgentStatus "active" = .online)
  ∧ (mapAgentStatus "working" = .busy ∧ mapAgentStatus "busy" = .busy)
  ∧ (mapAgentStatus "offline" = .offline ∧ mapAgentStatus "provisioning" = .offline
      ∧ mapAgentStatus "running" = .offline ∧ mapAgentStatus "processing" = .offline)
  ∧ (∀ s : String,
      mapAgentStatus s = .online ∨ mapAgentStatus s = .busy ∨ mapAgentStatus s = .offline)
  ∧ (∀ s : String, mapAgentStatus s ≠ .working)
  ∧ (∀ (cfg : Config) (es : List Event), (run cfg es).serayahStatus.status ≠ .working) := by
  refine ⟨⟨by decide, by decide⟩, ⟨by decide, by decide⟩,
    ⟨by decide, by decide, by decide, by decide⟩, ?_, mapAgentStatus_ne_working, ?_⟩
  · intro s
    unfold mapAgentStatus
    split_ifs <;> simp
  · intro cfg es
    exact foldl_status_ne_working cfg es initState (by simp [initState])

/-! ## C4: deduplicating append -/

theorem countById_eq_zero_any (prev : List SerayahMessage) (i : String)
    (h0 : countById prev i = 0) : prev.any (fun y => y.id == i) = false := by
  unfold countById at h0
  rw [List.countP_eq_zero] at h0
  simp only [List.any_eq_false]
  intro m hm
  simpa using h0 m hm

/-- C4: deduplication is idempotent on the transcript.  Delivering the same
identifier twice via the fallback path leaves exactly one rendered entry with
that id (the second delivery is a no-op); delivering once via the primary
path (which renders the frame under a freshly generated timestamp id `g.id`,
distinct from the server id) and once via the fallback path, in either
order, also leaves exactly one rendered entry with that id; and any fallback
append whose id is already present in the rendered set is discarded. -/
theorem c4_dedup_idempotent (prev : List SerayahMessage) (m mDup g : SerayahMessage)
    (hdup : mDup.id = m.id) (hg : g.id ≠ m.id) (h0 : countById prev m.id = 0) :
    dedupAppend (dedupAppend prev m) mDup = dedupAppend prev m
  ∧ countById (dedupAppend (dedupAppend prev m) mDup) m.id = 1
  ∧ countById (dedupAppend (prev ++ [g]) m) m.id = 1
  ∧ countById (dedupAppend prev m ++ [g]) m.id = 1
  ∧ (∀ (l : List SerayahMessage) (x : SerayahMessage),
      l.any (fun y => y.id == x.id) = true → dedupAppend l x = l) := by
  have hany := countById_eq_zero_any prev m.id h0
  have h1 : dedupAppend prev m = prev ++ [m] := by
    unfold dedupAppend
    rw [if_neg (by simp [hany])]
  have hany2 : (prev ++ [m]).any (fun y => y.id == mDup.id) = true := by
    simp [hdup]
  have h2 : dedupAppend (prev ++ [m]) mDup = prev ++ [m] := by
    unfold dedupAppend
    rw [if_pos hany2]
  have hcount : countById (prev ++ [m]) m.id = 1 := by
    unfold countById at h0 ⊢
    simp [List.countP_append, h0]
  refine ⟨by rw [h1, h2], by rw [h1, h2]; exact hcount, ?_, ?_, ?_⟩
  · have hanyg : (prev ++ [g]).any (fun y => y.id == m.id) = false := by
      simp [hany, hg]
    unfold dedupAppend
    rw [if_neg (by simp [hanyg])]
    unfold countById at h0 ⊢
    simp [List.countP_append, h0, hg]
  · rw [h1]
    unfold countById at h0 ⊢
    simp [List.countP_append, h0, hg]
  · intro l x hx
    unfold dedupAppend
    rw [if_pos hx]

/-- Witness for C4 at concrete inputs. -/
theorem c4_dedup_idempotent_witness :
    ((mkMsg "1" .assistant "hi" 7).id = (mkMsg "1" .assistant "hi" 0).id
      ∧ (mkMsg "2" .assistant "hi" 3).id ≠ (mkMsg "1" .assistant "hi" 0).id
      ∧ countById [] (mkMsg "1" .assistant "hi" 0).id = 0)
  ∧ countById
      (dedupAppend (dedupAppend [] (mkMsg "1" .assistant "hi" 0)) (mkMsg "1" .assistant "hi" 7))
      (mkMsg "1" .assistant "hi" 0).id = 1 :=
  ⟨⟨rfl, by decide, by decide⟩,
    (c4_dedup_idempotent [] (mkMsg "1" .assistant "hi" 0) (mkMsg "1" .assistant "hi" 7)
      (mkMsg "2" .assistant "hi" 3) rfl (by decide) (by decide)).2.1⟩

/-! ## Shared witness fixtures -/

/-- A configuration with both endpoints configured. -/
def cfgFull : Config := { gatewayWsUrl := "ws://gw", mcApiUrl := "http://api" }

/-- A state whose socket is OPEN. -/
def stWsOpen : ChatState := { initState with wsState := .opened }

/-- A state with one pending health probe. -/
def stProbe : ChatState := { initState with pendingProbes := 1 }

/-! ## C7: undecodable frames become verbatim assistant messages -/

/-- C7: a realtime frame whose payload fails JSON decoding appends exactly
one assistant-role message whose content is the raw frame text verbatim
(under a generated id), and changes nothing else — in particular the
connection state is unchanged and no error is raised or reported. -/
theorem c7_plaintext (cfg : Config) (s : ChatState) (raw : String)
    (h : s.wsState = .opened) :
    step cfg s (.wsFrame (.text raw)) =
      { s with messages := s.messages ++ [mkMsg (toString s.now) .assistant raw s.now],
               now := s.now + 2 } := by
  rw [step_wsFrame, if_pos h]
  rfl

/-- Witness for C7 at a concrete open-socket state. -/
theorem c7_plaintext_witness :
    stWsOpen.wsState = .opened
  ∧ step cfgFull stWsOpen (.wsFrame (.text "hello")) =
      { stWsOpen with
        messages := stWsOpen.messages ++
          [mkMsg (toString stWsOpen.now) .assistant "hello" stWsOpen.now],
        now := stWsOpen.now + 2 } :=
  ⟨rfl, c7_plaintext cfgFull stWsOpen "hello" rfl⟩

/-! ## C10: silently dropped parsed frames -/

/-- The enumeration of parsed-but-unrecognized frames from the claim: no recognized
`type` (including non-object payloads, which have no `type`), a `message`
frame with falsy `content`, a `res` frame with falsy `result`, a `chat` event
with falsy `payload?.message`, or a `presence` event with falsy
`payload?.agent`. -/
def wsDropFrame (v : JsonVal) : Bool :=
  (!(isStr (jget v "type") "event" || isStr (jget v "type") "message"
      || isStr (jget v "type") "res"))
  || (isStr (jget v "type") "message" && !truthyO (jget v "content"))
  || (isStr (jget v "type") "res" && !truthyO (jget v "result"))
  || (isStr (jget v "type") "event" && isStr (jget v "event") "chat"
        && !truthyO (jgetOpt (jget v "payload") "message"))
  || (isStr (jget v "type") "event" && isStr (jget v "event") "presence"
        && !truthyO (jgetOpt (jget v "payload") "agent"))

theorem isStr_eq_true_iff (o : Option JsonVal) (a : String) :
    isStr o a = true ↔ o = some (.str a) := by
  cases o with
  | none => simp [isStr]
  | some v => cases v <;> simp [isStr]

theorem handleWsMessage_drop (now : Nat) (v : JsonVal) (msgs : List SerayahMessage)
    (status : SerayahStatus) (hv : wsDropFrame v = true) :
    handleWsMessage now v msgs status = (msgs, status) := by
  unfold handleWsMessage
  split_ifs with h1 h2 h3 h4 h5 h6 <;> try rfl
  · obtain ⟨h3a, h3b⟩ := by simpa using h3
    rw [isStr_eq_true_iff] at h2 h3a
    simp [wsDropFrame, h2, h3a, h3b, isStr] at hv
  · obtain ⟨h4a, h4b⟩ := by simpa using h4
    rw [isStr_eq_true_iff] at h2 h4a
    simp [wsDropFrame, h2, h4a, h4b, isStr] at hv
  · obtain ⟨h5a, h5b⟩ := by simpa using h5
    rw [isStr_eq_true_iff] at h5a
    simp [wsDropFrame, h5a, h5b, isStr] at hv
  · obtain ⟨h6a, h6b⟩ := by simpa using h6
    rw [isStr_eq_true_iff] at h6a
    simp [wsDropFrame, h6a, h6b, isStr] at hv

/-- C10: a frame that parses as JSON but matches none of the recognized
shapes — no recognized `type`, a `message` without truthy content, a `res`
without truthy result, a `chat` event without `payload.message`, or a
`presence` event without `payload.agent` — is silently dropped: the
transcript, the status snapshot, and all connection state are unchanged,
and no plain-text fallback rendering occurs. -/
theorem c10_dropped_frames (cfg : Config) (s : ChatState) (v : JsonVal)
    (hws : s.wsState = .opened) (hv : wsDropFrame v = true) :
    step cfg s (.wsFrame (.json v)) = { s with now := s.now + 2 } := by
  rw [step_wsFrame, if_pos hws]
  show bumpNow (wsMessageS (.json v) s) = _
  unfold wsMessageS
  dsimp only
  rw [handleWsMessage_drop _ _ _ _ hv]
  rfl

/-- Witness for C10 on a concrete unrecognized frame. -/
theorem c10_dropped_frames_witness :
    stWsOpen.wsState = .opened
  ∧ wsDropFrame (.obj [("type", .str "ping")]) = true
  ∧ step cfgFull stWsOpen (.wsFrame (.json (.obj [("type", .str "ping")]))) =
      { stWsOpen with now := stWsOpen.now + 2 } :=
  ⟨rfl, rfl, c10_dropped_frames cfgFull stWsOpen (.obj [("type", .str "ping")]) rfl rfl⟩

/-! ## C6: fallback polling starts iff the liveness probe succeeds -/

theorem startHttpFallbackS_pollActive (s : ChatState) :
    (startHttpFallbackS s).pollActive = s.pollActive := by
  unfold startHttpFallbackS
  split_ifs <;> rfl

theorem connectS_pollActive_imp (cfg : Config) (ok : Bool) (s : ChatState)
    (h : (connectS cfg ok s).pollActive = true) : s.pollActive = true := by
  unfold connectS stopHttpFallbackS at h
  dsimp only at h
  split_ifs at h <;> simp_all [startHttpFallbackS_pollActive]

theorem openChatS_pollActive_imp (cfg : Config) (ok : Bool) (s : ChatState)
    (h : (openChatS cfg ok s).pollActive = true) : s.pollActive = true := by
  unfold openChatS at h
  dsimp only at h
  split_ifs at h <;>
    first
      | simpa using h
      | (have hpoll := connectS_pollActive_imp _ _ _ h; simpa using hpoll)

theorem sendS_pollActive_imp (cfg : Config) (input : String) (ok postOk : Bool)
    (s : ChatState) (h : (sendS cfg input ok postOk s).pollActive = true) :
    s.pollActive = true := by
  unfold sendS at h
  dsimp only at h
  split_ifs at h <;>
    first
      | simpa using h
      | (have hpoll := connectS_pollActive_imp _ _ _ h; simpa using hpoll)

theorem oncloseS_pollActive (s : ChatState) :
    (oncloseS s).pollActive = s.pollActive := by
  unfold oncloseS
  dsimp only
  split_ifs <;> simp [startHttpFallbackS_pollActive]

theorem wsMessageS_pollActive (f : RawFrame) (s : ChatState) :
    (wsMessageS f s).pollActive = s.pollActive := by
  cases f <;> rfl

theorem msgPollS_pollActive (cfg : Config) (ok : Bool) (items : List PollItem)
    (s : ChatState) : (msgPollS cfg ok items s).pollActive = s.pollActive := by
  unfold msgPollS
  split_ifs <;> rfl

theorem statusResultS_pollActive (cfg : Config) (r : Option AgentInfo) (s : ChatState) :
    (statusResultS cfg r s).pollActive = s.pollActive := by
  unfold statusResultS
  cases r <;> split_ifs <;> rfl

/-- C6: fallback polling timers start if and only if the pending liveness
probe completes successfully.  With an API base URL configured and a
successful probe (`GET /health` ok), the completion starts polling, sets
`poll-mode`, and sets the fallback flag; with no API URL configured or a
failed/thrown probe, the state is unchanged except for consuming the pending
probe — in particular the state is not set to `poll-mode` and no timer
starts; and no event other than a probe completion ever turns polling on. -/
theorem c6_fallback_gate (cfg : Config) (s : ChatState) (serverOk : Bool)
    (hp : 0 < s.pendingProbes) :
    ((cfg.mcApiUrl ≠ "" ∧ serverOk = true) →
        (step cfg s (.probeComplete serverOk)).pollActive = true
      ∧ (step cfg s (.probeComplete serverOk)).connectionState = .pollMode
      ∧ (step cfg s (.probeComplete serverOk)).useHttpFallback = true)
  ∧ ((cfg.mcApiUrl = "" ∨ serverOk = false) →
        step cfg s (.probeComplete serverOk) =
          { s with pendingProbes := s.pendingProbes - 1, now := s.now + 2 })
  ∧ (∀ e : Event, (step cfg s e).pollActive = true →
        s.pollActive = true ∨ ∃ b : Bool, e = .probeComplete b) := by
  refine ⟨?_, ?_, ?_⟩
  · rintro ⟨ha, hs⟩
    rw [step_probeComplete, if_pos hp]
    unfold bumpNow probeCompleteS checkHealthResult
    rw [if_neg ha, hs]
    simp
  · intro h
    rw [step_probeComplete, if_pos hp]
    unfold bumpNow probeCompleteS checkHealthResult
    rcases h with h | h
    · rw [if_pos h]
      simp
    · subst h
      split_ifs <;> simp_all
  · intro e h
    cases e with
    | openChat createOk =>
        rw [step_openChat, bumpNow_pollActive] at h
        exact Or.inl (openChatS_pollActive_imp _ _ _ h)
    | closeChat =>
        rw [step_closeChat, bumpNow_pollActive] at h
        simp [closeChatS, disconnectS, stopHttpFallbackS] at h
    | wsOpened =>
        rw [step_wsOpened, bumpNow_pollActive] at h
        split_ifs at h with hws
        · exact Or.inl h
        · exact Or.inl h
    | wsClosed =>
        rw [step_wsClosed, bumpNow_pollActive] at h
        split_ifs at h with hws
        · rw [oncloseS_pollActive] at h
          exact Or.inl h
        · exact Or.inl h
    | wsFrame f =>
        rw [step_wsFrame, bumpNow_pollActive] at h
        split_ifs at h with hws
        · rw [wsMessageS_pollActive] at h
          exact Or.inl h
        · exact Or.inl h
    | timerFire createOk =>
        rw [step_timerFire, bumpNow_pollActive] at h
        split_ifs at h with ht ho
        · have := connectS_pollActive_imp _ _ _ h
          exact Or.inl (by simpa using this)
        · exact Or.inl (by simpa using h)
        · exact Or.inl h
    | probeComplete serverOk2 => exact Or.inr ⟨serverOk2, rfl⟩
    | statusResult r =>
        rw [step_statusResult, bumpNow_pollActive, statusResultS_pollActive] at h
        exact Or.inl h
    | msgPoll ok items =>
        rw [step_msgPoll, bumpNow_pollActive] at h
        split_ifs at h with hpa
        · exact Or.inl hpa
        · exact Or.inl h
    | send input createOk postOk =>
        rw [step_send, bumpNow_pollActive] at h
        exact Or.inl (sendS_pollActive_imp _ _ _ _ _ h)
    | forceReconnect createOk =>
        rw [step_forceReconnect, bumpNow_pollActive] at h
        unfold forceReconnectS at h
        have := connectS_pollActive_imp _ _ _ h
        simp [disconnectS, stopHttpFallbackS] at this

/-- Witness for C6: a successful probe at a concrete pending-probe state. -/
theorem c6_fallback_gate_witness :
    0 < stProbe.pendingProbes
  ∧ (step cfgFull stProbe (.probeComplete true)).pollActive = true :=
  ⟨by decide,
    ((c6_fallback_gate cfgFull stProbe true (by decide)).1 ⟨by decide, rfl⟩).1⟩

/-! ## C3: the polling watermark -/

theorem str_not_lt_empty (s : String) : ¬ s < "" := by
  rw [String.lt_iff_toList_lt]
  intro h
  exact List.Lex.not_nil_right _ _ h

/-- C3 counterexample: the code sets the watermark to the last item of each
successful batch unconditionally (`lastMessageIdRef.current = lastMsg.id ||
lastMessageIdRef.current`), so a batch whose last id is lexically smaller
than the stored watermark rewinds it.  After receiving the batch `["5"]` and
then the batch `["3"]`, the stored watermark is `"3"`: it decreased from
`"5"` and is not the lexically-last identifier across the received batches. -/
theorem c3_watermark_counterexample :
    pollSeqWatermark "0"
      [{ ok := true, items := [{ id := "5", content := "a", role := "assistant", created_at := 0 }] },
       { ok := true, items := [{ id := "3", content := "b", role := "assistant", created_at := 0 }] }] = "3"
  ∧ pollSeqWatermark "0"
      [{ ok := true, items := [{ id := "5", content := "a", role := "assistant", created_at := 0 }] }] = "5"
  ∧ ("3" : String) < "5" := by
  refine ⟨rfl, rfl, ?_⟩
  rw [String.lt_iff_toList_lt]
  decide

/-- The last-item identifiers contributed by the successful nonempty batches
of a poll sequence, in arrival order. -/
def pollLastIds (bs : List PollBatch) : List String :=
  bs.filterMap (fun b => if b.ok then (b.items.getLast?).map (fun it => it.id) else none)

/-- C3 amended: the watermark is advanced only based on returned items — a
failed response or an empty batch leaves it unchanged, and each successful
nonempty batch moves it to the id of the last item of that batch.  It is NOT monotone for
arbitrary batch sequences (see the counterexample); but whenever the batches
respect the `after=watermark` query contract — each successful nonempty
last id of each successful nonempty batch is lexically above the watermark current at that poll, i.e.
the watermark followed by the arriving last-ids forms a strictly increasing
chain — the watermark never decreases and ends at the last received id. -/
theorem c3_watermark_amended (w : String) (bs : List PollBatch)
    (h : (w :: pollLastIds bs).Chain' (· < ·)) :
    w ≤ pollSeqWatermark w bs
  ∧ pollSeqWatermark w bs =
      (w :: pollLastIds bs).getLast (List.cons_ne_nil _ _) := by
  induction bs generalizing w with
  | nil => simp [pollSeqWatermark, pollLastIds]
  | cons b bs ih =>
      cases hok : b.ok with
      | false =>
          have hl : pollLastIds (b :: bs) = pollLastIds bs := by
            simp [pollLastIds, hok]
          rw [hl] at h
          have hmain := ih w h
          have hstep : pollBatchWatermark w b.ok b.items = w := by
            simp [pollBatchWatermark, hok]
          constructor
          · simpa [pollSeqWatermark, List.foldl_cons, hstep] using hmain.1
          · rw [show pollSeqWatermark w (b :: bs) =
                pollSeqWatermark (pollBatchWatermark w b.ok b.items) bs from rfl, hstep]
            simp only [hl]
            exact hmain.2
      | true =>
          cases hlast : b.items.getLast? with
          | none =>
              have hl : pollLastIds (b :: bs) = pollLastIds bs := by
                simp [pollLastIds, hok, hlast]
              rw [hl] at h
              have hmain := ih w h
              have hstep : pollBatchWatermark w b.ok b.items = w := by
                simp [pollBatchWatermark, hok, hlast]
              constructor
              · simpa [pollSeqWatermark, List.foldl_cons, hstep] using hmain.1
              · rw [show pollSeqWatermark w (b :: bs) =
                    pollSeqWatermark (pollBatchWatermark w b.ok b.items) bs from rfl, hstep]
                simp only [hl]
                exact hmain.2
          | some lastMsg =>
              have hl : pollLastIds (b :: bs) = lastMsg.id :: pollLastIds bs := by
                simp [pollLastIds, hok, hlast]
              rw [hl] at h
              have hwlt : w < lastMsg.id := (List.chain'_cons.mp h).1
              have h2 : (lastMsg.id :: pollLastIds bs).Chain' (· < ·) :=
                (List.chain'_cons.mp h).2
              have hid : lastMsg.id ≠ "" := by
                intro he
                exact str_not_lt_empty w (he ▸ hwlt)
              have hstep : pollBatchWatermark w b.ok b.items = lastMsg.id := by
                simp [pollBatchWatermark, hok, hlast, hid]
              have hmain := ih lastMsg.id h2
              have hfold : pollSeqWatermark w (b :: bs) = pollSeqWatermark lastMsg.id bs := by
                rw [show pollSeqWatermark w (b :: bs) =
                    pollSeqWatermark (pollBatchWatermark w b.ok b.items) bs from rfl, hstep]
              constructor
              · rw [hfold]
                exact le_trans (le_of_lt hwlt) hmain.1
              · rw [hfold, hl, List.getLast_cons (List.cons_ne_nil _ _)]
                exact hmain.2

/-- Witness for C3 amended at a concrete in-order batch sequence. -/
theorem c3_watermark_amended_witness :
    ("0" :: pollLastIds
      [{ ok := true, items := [{ id := "3", content := "a", role := "assistant", created_at := 0 }] },
       { ok := true, items := [{ id := "5", content := "b", role := "assistant", created_at := 0 }] }]).Chain' (· < ·)
  ∧ ("0" : String) ≤ pollSeqWatermark "0"
      [{ ok := true, items := [{ id := "3", content := "a", role := "assistant", created_at := 0 }] },
       { ok := true, items := [{ id := "5", content := "b", role := "assistant", created_at := 0 }] }] := by
  have hch : ("0" :: pollLastIds
      [{ ok := true, items := [{ id := "3", content := "a", role := "assistant", created_at := 0 }] },
       { ok := true, items := [{ id := "5", content := "b", role := "assistant", created_at := 0 }] }]).Chain' (· < ·) := by
    refine List.chain'_cons.mpr ⟨?_, List.chain'_cons.mpr ⟨?_, List.chain'_singleton _⟩⟩ <;>
      (rw [String.lt_iff_toList_lt]; decide)
  exact ⟨hch, (c3_watermark_amended "0" _ hch).1⟩

/-! ## C8: send failure surfaces only in fallback mode -/

theorem connectS_messages (cfg : Config) (ok : Bool) (s : ChatState) :
    (connectS cfg ok s).messages = s.messages := by
  unfold connectS stopHttpFallbackS startHttpFallbackS
  dsimp only
  split_ifs <;> rfl

theorem connectS_httpPosts (cfg : Config) (ok : Bool) (s : ChatState) :
    (connectS cfg ok s).httpPosts = s.httpPosts := by
  unfold connectS stopHttpFallbackS startHttpFallbackS
  dsimp only
  split_ifs <;> rfl

/-- A state in fallback mode (for witnesses). -/
def stFallback : ChatState := { initState with useHttpFallback := true }

/-- C8: a send while in fallback mode issues exactly one HTTP POST; when the
POST fails, exactly one locally-generated system message with the delivery
failure text is appended after the optimistic user message, and nothing is
retried; when the POST succeeds, no system message is appended.  With an
open socket, a send appends only the user message whatever the POST flag;
and in the remaining states a send appends the connecting notice, whose text
differs from the failure text, so no other state surfaces a send failure. -/
theorem c8_send_failure (cfg : Config) (s : ChatState) (content : String) (postOk : Bool)
    (hc : jsTrim content ≠ "") (hf : s.useHttpFallback = true) (hw : s.wsState ≠ .opened)
    (ha : cfg.mcApiUrl ≠ "") :
    (postOk = false →
        (step cfg s (.send content true postOk)).messages =
          s.messages ++ [mkMsg (toString s.now) .user (jsTrim content) s.now,
                         mkMsg (toString (s.now + 1)) .system sendFailText s.now]
      ∧ (step cfg s (.send content true postOk)).httpPosts =
          s.httpPosts ++ [jsTrim content])
  ∧ (postOk = true →
        (step cfg s (.send content true postOk)).messages =
          s.messages ++ [mkMsg (toString s.now) .user (jsTrim content) s.now]
      ∧ (step cfg s (.send content true postOk)).httpPosts =
          s.httpPosts ++ [jsTrim content])
  ∧ (∀ (s2 : ChatState) (pOk : Bool), s2.wsState = .opened →
        (step cfg s2 (.send content true pOk)).messages =
          s2.messages ++ [mkMsg (toString s2.now) .user (jsTrim content) s2.now]
      ∧ (step cfg s2 (.send content true pOk)).httpPosts = s2.httpPosts)
  ∧ (∀ s3 : ChatState, s3.wsState ≠ .opened → s3.useHttpFallback = false →
        (step cfg s3 (.send content true postOk)).messages =
          s3.messages ++ [mkMsg (toString s3.now) .user (jsTrim content) s3.now,
                          mkMsg (toString (s3.now + 1)) .system connectingText s3.now]
      ∧ (step cfg s3 (.send content true postOk)).httpPosts = s3.httpPosts)
  ∧ connectingText ≠ sendFailText := by
  refine ⟨?_, ?_, ?_, ?_, by decide⟩
  · intro hpost
    subst hpost
    rw [step_send, bumpNow_messages, bumpNow_httpPosts]
    unfold sendS
    dsimp only
    rw [if_neg hc]
    simp [hf, hw, ha]
  · intro hpost
    subst hpost
    rw [step_send, bumpNow_messages, bumpNow_httpPosts]
    unfold sendS
    dsimp only
    rw [if_neg hc]
    simp [hf, hw, ha]
  · intro s2 pOk h2
    rw [step_send, bumpNow_messages, bumpNow_httpPosts]
    unfold sendS
    dsimp only
    rw [if_neg hc]
    simp [h2]
  · intro s3 h3 h3f
    rw [step_send, bumpNow_messages, bumpNow_httpPosts]
    unfold sendS
    dsimp only
    rw [if_neg hc]
    simp [h3, h3f, connectS_messages, connectS_httpPosts]

/-- Witness for C8: a failing POST at a concrete fallback-mode state. -/
theorem c8_send_failure_witness :
    jsTrim "hi" ≠ "" ∧ stFallback.useHttpFallback = true
  ∧ stFallback.wsState ≠ .opened ∧ cfgFull.mcApiUrl ≠ ""
  ∧ (step cfgFull stFallback (.send "hi" true false)).messages =
      stFallback.messages ++
        [mkMsg (toString stFallback.now) .user (jsTrim "hi") stFallback.now,
         mkMsg (toString (stFallback.now + 1)) .system sendFailText stFallback.now] := by
  refine ⟨by decide, rfl, by decide, by decide, ?_⟩
  exact ((c8_send_failure cfgFull stFallback "hi" false (by decide) rfl (by decide)
    (by decide)).1 rfl).1

/-! ## C2: reconnect backoff 3s / 6s / 9s, then the fallback path -/

theorem onclose_retry (cfg : Config) (s : ChatState)
    (hws : s.wsState = .connecting ∨ s.wsState = .opened)
    (ho : s.isOpen = true) (ha : s.reconnectAttempt < MAX_WS_RECONNECT_ATTEMPTS) :
    step cfg s .wsClosed =
      { s with
        wsState := .closed,
        connectionState := .disconnected,
        serayahStatus := { s.serayahStatus with status := .offline },
        reconnectAttempt := s.reconnectAttempt + 1,
        reconnectTimer := some (3000 * (s.reconnectAttempt + 1)),
        scheduledDelays := s.scheduledDelays ++ [3000 * (s.reconnectAttempt + 1)],
        now := s.now + 2 } := by
  rw [step_wsClosed, if_pos hws]
  unfold bumpNow oncloseS
  dsimp only
  rw [if_pos ho, if_pos ha]

theorem onclose_exhausted (cfg : Config) (s : ChatState)
    (hws : s.wsState = .connecting ∨ s.wsState = .opened)
    (ho : s.isOpen = true) (ha : ¬ s.reconnectAttempt < MAX_WS_RECONNECT_ATTEMPTS)
    (hf : s.useHttpFallback = false) :
    step cfg s .wsClosed =
      { s with
        wsState := .closed,
        connectionState := .disconnected,
        serayahStatus := { s.serayahStatus with status := .offline },
        pendingProbes := s.pendingProbes + 1,
        now := s.now + 2 } := by
  rw [step_wsClosed, if_pos hws]
  unfold bumpNow oncloseS startHttpFallbackS
  dsimp only
  rw [if_pos ho, if_neg ha, if_neg (by simp [hf])]

theorem timer_reconnect (cfg : Config) (s : ChatState)
    (ht : s.reconnectTimer.isSome = true) (ho : s.isOpen = true)
    (hurl : ¬ cfg.gatewayWsUrl = "") (hws : s.wsState = .closed) :
    step cfg s (.timerFire true) =
      { s with
        reconnectTimer := none,
        useHttpFallback := false,
        pollActive := false,
        connectionState := if 0 < s.reconnectAttempt then .reconnecting else .connecting,
        wsState := .connecting,
        socketUrl := some (buildWsUrl cfg),
        now := s.now + 2 } := by
  rw [step_timerFire, if_pos ht, if_pos ho]
  unfold bumpNow connectS stopHttpFallbackS
  dsimp only
  rw [if_neg hurl, if_neg (by simp [hws]), if_pos rfl]

/-- C2: starting from an open chat surface with attempt counter 0 and a
socket in flight, four consecutive socket closures (each followed by its
scheduled retry, which reconnects) schedule exactly the delays 3000, 6000
and 9000 ms — `3000 * attemptNumber` — and the fourth closure schedules no
further retry: the timer slot is empty and one liveness probe (the entry to
the fallback path) has been issued instead. -/
theorem c2_backoff (cfg : Config) (s : ChatState)
    (hurl : ¬ cfg.gatewayWsUrl = "") (ho : s.isOpen = true) (ha : s.reconnectAttempt = 0)
    (hw : s.wsState = .connecting) (hf : s.useHttpFallback = false) :
    List.foldl (step cfg) s
        [.wsClosed, .timerFire true, .wsClosed, .timerFire true, .wsClosed, .timerFire true,
         .wsClosed] =
      { s with
        wsState := .closed,
        connectionState := .disconnected,
        serayahStatus := { s.serayahStatus with status := .offline },
        reconnectAttempt := 3,
        useHttpFallback := false,
        pollActive := false,
        socketUrl := some (buildWsUrl cfg),
        reconnectTimer := none,
        pendingProbes := s.pendingProbes + 1,
        scheduledDelays := s.scheduledDelays ++ [3000, 6000, 9000],
        now := s.now + 14 } := by
  simp only [List.foldl_cons, List.foldl_nil]
  simp [onclose_retry, timer_reconnect, onclose_exhausted, ho, ha, hw, hf, hurl,
    MAX_WS_RECONNECT_ATTEMPTS, List.append_assoc]

/-- A freshly opened chat surface with its first socket in flight. -/
def stConnecting : ChatState := { initState with isOpen := true, wsState := .connecting }

/-- Witness for C2 at a concrete starting state. -/
theorem c2_backoff_witness :
    (¬ cfgFull.gatewayWsUrl = "") ∧ stConnecting.isOpen = true
  ∧ stConnecting.reconnectAttempt = 0 ∧ stConnecting.wsState = .connecting
  ∧ stConnecting.useHttpFallback = false
  ∧ (List.foldl (step cfgFull) stConnecting
      [.wsClosed, .timerFire true, .wsClosed, .timerFire true, .wsClosed, .timerFire true,
       .wsClosed]).scheduledDelays = [3000, 6000, 9000] := by
  refine ⟨by decide, rfl, rfl, rfl, rfl, ?_⟩
  rw [c2_backoff cfgFull stConnecting (by decide) rfl rfl rfl rfl]
  decide

/-! ## C5: the single pending-outbound slot -/

theorem connectS_pendingMessage (cfg : Config) (ok : Bool) (s : ChatState) :
    (connectS cfg ok s).pendingMessage = s.pendingMessage := by
  unfold connectS stopHttpFallbackS startHttpFallbackS
  dsimp only
  split_ifs <;> rfl

theorem connectS_sentFrames (cfg : Config) (ok : Bool) (s : ChatState) :
    (connectS cfg ok s).sentFrames = s.sentFrames := by
  unfold connectS stopHttpFallbackS startHttpFallbackS
  dsimp only
  split_ifs <;> rfl

theorem connectS_useHttpFallback_false (cfg : Config) (ok : Bool) (s : ChatState)
    (hf : s.useHttpFallback = false) : (connectS cfg ok s).useHttpFallback = false := by
  unfold connectS stopHttpFallbackS startHttpFallbackS
  dsimp only
  split_ifs <;> simp_all

theorem connectS_wsState_connecting (cfg : Config) (s : ChatState)
    (hurl : ¬ cfg.gatewayWsUrl = "") (hw : s.wsState ≠ .opened) :
    (connectS cfg true s).wsState = .connecting := by
  unfold connectS stopHttpFallbackS
  dsimp only
  rw [if_neg hurl]
  split_ifs with h
  · rcases h with h | h
    · exact absurd h hw
    · exact h
  all_goals first
    | rfl
    | simp_all

theorem sendS_buffered (cfg : Config) (content : String) (postOk : Bool) (s : ChatState)
    (hc : jsTrim content ≠ "") (hw : s.wsState ≠ .opened) (hf : s.useHttpFallback = false) :
    (sendS cfg content true postOk s).pendingMessage = some (jsTrim content)
  ∧ (sendS cfg content true postOk s).sentFrames = s.sentFrames
  ∧ (sendS cfg content true postOk s).httpPosts = s.httpPosts
  ∧ (sendS cfg content true postOk s).useHttpFallback = false
  ∧ (¬ cfg.gatewayWsUrl = "" → (sendS cfg content true postOk s).wsState = .connecting) := by
  unfold sendS
  dsimp only
  rw [if_neg hc, if_neg hw, if_neg (by simp [hf])]
  refine ⟨?_, ?_, ?_, ?_, ?_⟩
  · rw [connectS_pendingMessage]
  · rw [connectS_sentFrames]
  · rw [connectS_httpPosts]
  · exact connectS_useHttpFallback_false _ _ _ hf
  · intro hurl
    exact connectS_wsState_connecting _ _ hurl hw

theorem messageFrames_handshake (fs : List OutFrame) (c : String) :
    messageFrames (fs ++ [OutFrame.connectFrame] ++ [OutFrame.messageFrame c]) =
      messageFrames fs ++ [c] := by
  simp [messageFrames, List.filterMap_append]

/-- C5: sending `A` with no transport ready stores `jsTrim A` in the single
pending slot and opens a connection attempt; sending `B` before that attempt
completes overwrites the slot, which then holds only `jsTrim B`; the next
successful socket open transmits exactly `B` (after the handshake frame) and
clears the slot; `A` is transmitted on no socket frame and posted on no
fallback POST — it is never delivered. -/
theorem c5_pending_overwrite (cfg : Config) (s : ChatState) (A B : String)
    (hurl : ¬ cfg.gatewayWsUrl = "") (hA : jsTrim A ≠ "") (hB : jsTrim B ≠ "")
    (hw : s.wsState ≠ .opened) (hf : s.useHttpFallback = false) :
    (step cfg (step cfg s (.send A true true)) (.send B true true)).pendingMessage
        = some (jsTrim B)
  ∧ (step cfg (step cfg (step cfg s (.send A true true)) (.send B true true))
        .wsOpened).pendingMessage = none
  ∧ messageFrames (step cfg (step cfg (step cfg s (.send A true true)) (.send B true true))
        .wsOpened).sentFrames = messageFrames s.sentFrames ++ [jsTrim B]
  ∧ (step cfg (step cfg (step cfg s (.send A true true)) (.send B true true))
        .wsOpened).httpPosts = s.httpPosts := by
  have h1 := sendS_buffered cfg A true s hA hw hf
  have h1w : (step cfg s (.send A true true)).wsState = .connecting := by
    rw [step_send, bumpNow_wsState]
    exact h1.2.2.2.2 hurl
  have h1f : (step cfg s (.send A true true)).useHttpFallback = false := by
    rw [step_send, bumpNow_useHttpFallback]
    exact h1.2.2.2.1
  have h1s : (step cfg s (.send A true true)).sentFrames = s.sentFrames := by
    rw [step_send, bumpNow_sentFrames]
    exact h1.2.1
  have h1h : (step cfg s (.send A true true)).httpPosts = s.httpPosts := by
    rw [step_send, bumpNow_httpPosts]
    exact h1.2.2.1
  have h2 := sendS_buffered cfg B true (step cfg s (.send A true true)) hB
    (by rw [h1w]; decide) h1f
  have h2p : (step cfg (step cfg s (.send A true true)) (.send B true true)).pendingMessage
      = some (jsTrim B) := by
    rw [step_send, bumpNow_pendingMessage]
    exact h2.1
  have h2w : (step cfg (step cfg s (.send A true true)) (.send B true true)).wsState
      = .connecting := by
    rw [step_send, bumpNow_wsState]
    exact h2.2.2.2.2 hurl
  have h2s : (step cfg (step cfg s (.send A true true)) (.send B true true)).sentFrames
      = s.sentFrames := by
    rw [step_send, bumpNow_sentFrames]
    exact h2.2.1.trans h1s
  have h2h : (step cfg (step cfg s (.send A true true)) (.send B true true)).httpPosts
      = s.httpPosts := by
    rw [step_send, bumpNow_httpPosts]
    exact h2.2.2.1.trans h1h
  refine ⟨h2p, ?_, ?_, ?_⟩
  · rw [step_wsOpened, if_pos h2w, bumpNow_pendingMessage]
    rfl
  · rw [step_wsOpened, if_pos h2w, bumpNow_sentFrames]
    have hsf : (onopenS (step cfg (step cfg s (.send A true true))
          (.send B true true))).sentFrames
        = (step cfg (step cfg s (.send A true true)) (.send B true true)).sentFrames ++
          [OutFrame.connectFrame] ++ [OutFrame.messageFrame (jsTrim B)] := by
      unfold onopenS
      dsimp only
      rw [h2p]
    rw [hsf, h2s, messageFrames_handshake]
  · rw [step_wsOpened, if_pos h2w, bumpNow_httpPosts]
    show (step cfg (step cfg s (.send A true true)) (.send B true true)).httpPosts = _
    exact h2h

/-- Witness for C5 at the initial disconnected state. -/
theorem c5_pending_overwrite_witness :
    (¬ cfgFull.gatewayWsUrl = "") ∧ jsTrim "A" ≠ "" ∧ jsTrim "B" ≠ ""
  ∧ initState.wsState ≠ .opened ∧ initState.useHttpFallback = false
  ∧ (step cfgFull (step cfgFull initState (.send "A" true true))
      (.send "B" true true)).pendingMessage = some (jsTrim "B") := by
  refine ⟨by decide, by decide, by decide, by decide, rfl, ?_⟩
  exact (c5_pending_overwrite cfgFull initState "A" "B" (by decide) (by decide) (by decide)
    (by decide) rfl).1

/-! ## C1: the at-most-one-transport invariant -/

/-- C1 counterexample: the liveness probe issued on the fourth socket
failure is awaited asynchronously, and its successful completion starts the
polling timers without rechecking the socket.  In the trace below, three
reconnects fail, the fourth closure issues the probe, a manual reconnect
then succeeds and opens the socket, and the late probe completion starts
fallback polling: the final state has the socket OPEN and the polling
timers active simultaneously (and is left in `poll-mode`). -/
theorem c1_transport_counterexample :
    (run cfgFull
      [.openChat true, .wsClosed, .timerFire true, .wsClosed, .timerFire true, .wsClosed,
       .timerFire true, .wsClosed, .forceReconnect true, .wsOpened,
       .probeComplete true]).wsState = .opened
  ∧ (run cfgFull
      [.openChat true, .wsClosed, .timerFire true, .wsClosed, .timerFire true, .wsClosed,
       .timerFire true, .wsClosed, .forceReconnect true, .wsOpened,
       .probeComplete true]).pollActive = true := ⟨rfl, rfl⟩

/-- The event sequences in which every liveness-probe completion is delivered
while the primary socket is neither CONNECTING nor OPEN (in particular, all
sequences in which each probe resolves before the next reconnect begins). -/
def probeSafeFrom (cfg : Config) : ChatState → List Event → Bool
  | _, [] => true
  | s, e :: es =>
      (match e with
       | .probeComplete _ => !(s.wsState == WsState.connecting) && !(s.wsState == WsState.opened)
       | _ => true)
      && probeSafeFrom cfg (step cfg s e) es

theorem connectS_excl (cfg : Config) (ok : Bool) (s : ChatState)
    (h : s.pollActive = true → s.wsState ≠ .connecting ∧ s.wsState ≠ .opened) :
    (connectS cfg ok s).pollActive = true →
      (connectS cfg ok s).wsState ≠ .connecting ∧ (connectS cfg ok s).wsState ≠ .opened := by
  unfold connectS stopHttpFallbackS startHttpFallbackS
  dsimp only
  split_ifs <;> simp_all

theorem oncloseS_wsState (s : ChatState) : (oncloseS s).wsState = .closed := by
  unfold oncloseS startHttpFallbackS
  dsimp only
  split_ifs <;> rfl

theorem wsMessageS_wsState (f : RawFrame) (s : ChatState) :
    (wsMessageS f s).wsState = s.wsState := by
  cases f <;> rfl

theorem msgPollS_wsState (cfg : Config) (ok : Bool) (items : List PollItem) (s : ChatState) :
    (msgPollS cfg ok items s).wsState = s.wsState := by
  unfold msgPollS
  split_ifs <;> rfl

theorem statusResultS_wsState (cfg : Config) (r : Option AgentInfo) (s : ChatState) :
    (statusResultS cfg r s).wsState = s.wsState := by
  unfold statusResultS
  cases r <;> split_ifs <;> rfl

theorem step_excl (cfg : Config) (s : ChatState) (e : Event)
    (h : s.pollActive = true → s.wsState ≠ .connecting ∧ s.wsState ≠ .opened)
    (hp : ∀ b : Bool, e = .probeComplete b →
      s.wsState ≠ .connecting ∧ s.wsState ≠ .opened) :
    (step cfg s e).pollActive = true →
      (step cfg s e).wsState ≠ .connecting ∧ (step cfg s e).wsState ≠ .opened := by
  cases e with
  | openChat ok =>
      rw [step_openChat, bumpNow_pollActive, bumpNow_wsState]
      unfold openChatS
      dsimp only
      split_ifs <;> first | exact connectS_excl _ _ _ h | exact h
  | closeChat =>
      rw [step_closeChat, bumpNow_pollActive]
      intro hpa
      simp [closeChatS, disconnectS, stopHttpFallbackS] at hpa
  | wsOpened =>
      rw [step_wsOpened, bumpNow_pollActive, bumpNow_wsState]
      split_ifs with hws
      · intro hpa
        have := h (by simpa [onopenS] using hpa)
        exact absurd hws this.1
      · exact h
  | wsClosed =>
      rw [step_wsClosed, bumpNow_pollActive, bumpNow_wsState]
      split_ifs with hws
      · intro _
        rw [oncloseS_wsState]
        exact ⟨by decide, by decide⟩
      · exact h
  | wsFrame f =>
      rw [step_wsFrame, bumpNow_pollActive, bumpNow_wsState]
      split_ifs with hws
      · rw [wsMessageS_pollActive, wsMessageS_wsState]
        exact h
      · exact h
  | timerFire ok =>
      rw [step_timerFire, bumpNow_pollActive, bumpNow_wsState]
      split_ifs with ht ho
      · exact connectS_excl _ _ _ h
      · exact h
      · exact h
  | probeComplete b =>
      rw [step_probeComplete, bumpNow_pollActive, bumpNow_wsState]
      split_ifs with hn
      · intro _
        unfold probeCompleteS
        dsimp only
        split_ifs <;> exact hp b rfl
      · exact h
  | statusResult r =>
      rw [step_statusResult, bumpNow_pollActive, bumpNow_wsState,
        statusResultS_pollActive, statusResultS_wsState]
      exact h
  | msgPoll ok items =>
      rw [step_msgPoll, bumpNow_pollActive, bumpNow_wsState]
      split_ifs with hpa
      · rw [msgPollS_pollActive, msgPollS_wsState]
        exact h
      · exact h
  | send input ok postOk =>
      rw [step_send, bumpNow_pollActive, bumpNow_wsState]
      unfold sendS
      dsimp only
      split_ifs <;> first | exact connectS_excl _ _ _ h | exact h
  | forceReconnect ok =>
      rw [step_forceReconnect, bumpNow_pollActive, bumpNow_wsState]
      unfold forceReconnectS
      refine connectS_excl _ _ _ ?_
      intro hpa
      simp [disconnectS, stopHttpFallbackS] at hpa

theorem foldl_excl (cfg : Config) (es : List Event) (s : ChatState)
    (h : s.pollActive = true → s.wsState ≠ .connecting ∧ s.wsState ≠ .opened)
    (hs : probeSafeFrom cfg s es = true) :
    (es.foldl (step cfg) s).pollActive = true →
      (es.foldl (step cfg) s).wsState ≠ .connecting
      ∧ (es.foldl (step cfg) s).wsState ≠ .opened := by
  induction es generalizing s with
  | nil => exact h
  | cons e es ih =>
      rw [List.foldl_cons]
      unfold probeSafeFrom at hs
      rw [Bool.and_eq_true] at hs
      obtain ⟨hs1, hs2⟩ := hs
      refine ih _ (step_excl cfg s e h ?_) hs2
      intro b hb
      subst hb
      simpa using hs1

/-- C1 amended: in the model, `connect` stops fallback polling before it
creates a socket, so whenever a connect call creates a socket the polling
timers are off; and along every trace in which each liveness-probe completion
is delivered while the socket is neither connecting nor open (e.g. when
probes resolve synchronously), no reachable state has the socket OPEN with
fallback polling active.  Without that delivery restriction the invariant
fails (see the counterexample): the probe started on the fourth failure has
no socket check when it completes. -/
theorem c1_transport_amended (cfg : Config) (es : List Event)
    (h : probeSafeFrom cfg initState es = true) :
    (¬ ((run cfg es).wsState = .opened ∧ (run cfg es).pollActive = true))
  ∧ (∀ (s : ChatState) (createOk : Bool), s.wsState ≠ .connecting →
      (connectS cfg createOk s).wsState = .connecting →
      (connectS cfg createOk s).pollActive = false) := by
  constructor
  · rintro ⟨hw, hpa⟩
    have hJ := foldl_excl cfg es initState
      (by intro h0; simp [initState] at h0) h
    exact (hJ hpa).2 hw
  · intro s ok hne hconn
    unfold connectS stopHttpFallbackS startHttpFallbackS at hconn ⊢
    dsimp only at hconn ⊢
    split_ifs at hconn ⊢ <;>
      first
        | rfl
        | exact absurd hconn hne

/-- Witness for C1 amended on a concrete probe-safe trace. -/
theorem c1_transport_amended_witness :
    probeSafeFrom cfgFull initState [.openChat true, .wsOpened] = true
  ∧ ¬ (((run cfgFull [.openChat true, .wsOpened]).wsState = .opened)
        ∧ (run cfgFull [.openChat true, .wsOpened]).pollActive = true) :=
  ⟨by decide, (c1_transport_amended cfgFull [.openChat true, .wsOpened] (by decide)).1⟩

end SerayahChat
